import Mathlib

/-!
# Shallow embedding of the Pomodoro timer core (src/unnamed/part_000)

This file embeds the state machine of the `PomodoroTimer` component:
the countdown clock (`tick`, driven by the one-second interval effect),
the completion handler (`handleTimerComplete`), the mode switcher
(`switchTimer`), the start/pause toggle (`toggleTimer`), the task-list
operations (`addTask`, `toggleTaskCompletion`, `incrementTaskPomodoros`,
`removeTask`), the user-configurable durations (`timerSettings` and the
settings-panel `onChange` handler), and the persistence payload for the
`pomodoro-tasks` key.

JavaScript numbers are modelled as `Int` (all arithmetic the component
performs on them is exact integer arithmetic).  The emitted effects —
`handleTimerComplete` invocations (the `SessionCompleted` events of the
spec) and `audioRef.current.play()` calls (the notification sink) — are
instrumented as counters on the state so theorems can count them.
-/

namespace Pomodoro

/-- `type TimerType = "work" | "shortBreak" | "longBreak"` (line 14).
The spec calls these kinds Focus / ShortBreak / LongBreak. -/
inductive TimerType where
  | work
  | shortBreak
  | longBreak
deriving DecidableEq, Repr

/-- The countdown value `{ minutes, seconds }` held in the `time` state
(line 30). -/
structure Time where
  minutes : Int
  seconds : Int
deriving DecidableEq, Repr

/-- `interface Task { id: number; text: string; completed: boolean;
pomodoros: number }` (lines 16–21). -/
structure Task where
  id : Int
  text : String
  completed : Bool
  pomodoros : Int
deriving DecidableEq, Repr

/-- `interface TimerSettings { work; shortBreak; longBreak }`
(lines 23–27): minutes per timer type. -/
structure TimerSettings where
  work : Int
  shortBreak : Int
  longBreak : Int
deriving DecidableEq, Repr

/-- The indexing `timerSettings[type]` used by `switchTimer` and
`resetTimer`. -/
def TimerSettings.get (s : TimerSettings) : TimerType → Int
  | .work => s.work
  | .shortBreak => s.shortBreak
  | .longBreak => s.longBreak

/-- The component state relevant to the core: the `useState` hooks of
lines 30–43, plus two instrumentation counters recording the emitted
effects (`sessionCompletedEvents` counts `handleTimerComplete`
invocations, i.e. `SessionCompleted` events; `notificationsFired` counts
`audioRef.current.play()` calls). -/
structure AppState where
  time : Time
  isActive : Bool
  timerType : TimerType
  tasks : List Task
  completedPomodoros : Int
  timerSettings : TimerSettings
  isMuted : Bool
  sessionCompletedEvents : Nat
  notificationsFired : Nat
deriving DecidableEq, Repr

/-- The initial state of the hooks (lines 30–43): 25:00, paused, work
mode, no tasks, zero completed pomodoros, default durations 25/5/15,
not muted. -/
def initialState : AppState where
  time := ⟨25, 0⟩
  isActive := false
  timerType := .work
  tasks := []
  completedPomodoros := 0
  timerSettings := ⟨25, 5, 15⟩
  isMuted := false
  sessionCompletedEvents := 0
  notificationsFired := 0

/-- `switchTimer(type)` (lines 107–110): set `timerType`, set `time` to
`{ minutes: timerSettings[type], seconds: 0 }`.  Does not touch
`isActive`. -/
def switchTimer (type : TimerType) (s : AppState) : AppState :=
  { s with timerType := type, time := ⟨s.timerSettings.get type, 0⟩ }

/-- `handleTimerComplete()` (lines 98–105): stop the clock, play the
notification unless muted, increment `completedPomodoros` when the
completed type is `work`, then `switchTimer(work ? shortBreak : work)`.
The `SessionCompleted` event counter is bumped on entry. -/
def handleTimerComplete (s : AppState) : AppState :=
  let s1 : AppState :=
    { s with
      isActive := false
      sessionCompletedEvents := s.sessionCompletedEvents + 1
      notificationsFired :=
        s.notificationsFired + (if s.isMuted then 0 else 1) }
  let s2 : AppState :=
    if s.timerType = .work then
      { s1 with completedPomodoros := s1.completedPomodoros + 1 }
    else s1
  switchTimer (if s.timerType = .work then .shortBreak else .work) s2

/-- One firing of the interval callback (lines 72–96).  The interval
exists only while `isActive`, so a tick on a paused state is the
identity.  Inside the `setTime` updater: seconds > 0 → decrement
seconds; seconds = 0 and minutes ≠ 0 → borrow a minute (seconds := 59);
both zero → `handleTimerComplete()` with the time left as-is (the
handler then resets it through `switchTimer`). -/
def tick (s : AppState) : AppState :=
  if s.isActive then
    if s.time.seconds = 0 then
      if s.time.minutes = 0 then
        handleTimerComplete s
      else
        { s with time := ⟨s.time.minutes - 1, 59⟩ }
    else
      { s with time := ⟨s.time.minutes, s.time.seconds - 1⟩ }
  else s

/-- `toggleTimer()` (lines 112–114): flip `isActive`. -/
def toggleTimer (s : AppState) : AppState :=
  { s with isActive := !s.isActive }

/-- The Start/Pause button (lines 240–251) renders `toggleTimer` as the
`start` action exactly when the session is paused (`isActive = false`,
label "Start"); while running the button is the Pause action, so no
start is possible — starting an already running session is a no-op. -/
def start (s : AppState) : AppState :=
  if s.isActive then s else toggleTimer s

/-- The Start/Pause button (lines 240–251) renders `toggleTimer` as the
`pause` action exactly when the session is running (`isActive = true`,
label "Pause"); pausing an already paused session is a no-op. -/
def pause (s : AppState) : AppState :=
  if s.isActive then toggleTimer s else s

/-- `resetTimer()` (lines 116–119): stop and reload the current type's
duration. -/
def resetTimer (s : AppState) : AppState :=
  { s with isActive := false, time := ⟨s.timerSettings.get s.timerType, 0⟩ }

/-- The WhiteSpace and LineTerminator code points `String.prototype.trim`
strips (ECMA-262): tab, LF, VT, FF, CR, space, NBSP, BOM, the Unicode
space separators, and the line/paragraph separators. -/
def isJsWhitespace (c : Char) : Bool :=
  c ∈ [' ', '\t', '\n', '\r', '\u000B', '\u000C', '\u00A0', '\uFEFF',
       '\u1680', '\u2000', '\u2001', '\u2002', '\u2003', '\u2004',
       '\u2005', '\u2006', '\u2007', '\u2008', '\u2009', '\u200A',
       '\u2028', '\u2029', '\u202F', '\u205F', '\u3000']

/-- JavaScript's `String.prototype.trim`: drop leading and trailing
whitespace. -/
def jsTrim (s : String) : String :=
  String.mk (((s.data.dropWhile isJsWhitespace).reverse.dropWhile
    isJsWhitespace).reverse)

/-- `addTask()` (lines 121–129): if `newTask.trim()` is truthy (a
non-empty string after trimming), append
`{ id: Date.now(), text: newTask, completed: false, pomodoros: 0 }` —
note the stored `text` is the untrimmed submission.  Otherwise no-op.
`Date.now()` is passed in as the `now` argument. -/
def addTask (now : Int) (newTask : String) (tasks : List Task) : List Task :=
  if jsTrim newTask ≠ "" then
    tasks ++ [{ id := now, text := newTask, completed := false, pomodoros := 0 }]
  else tasks

/-- `toggleTaskCompletion(id)` (lines 131–137): map over the list,
flipping `completed` on tasks whose id matches. -/
def toggleTaskCompletion (id : Int) (tasks : List Task) : List Task :=
  tasks.map fun task =>
    if task.id = id then { task with completed := !task.completed } else task

/-- `incrementTaskPomodoros(id)` (lines 139–145): map over the list,
adding 1 to `pomodoros` on tasks whose id matches. -/
def incrementTaskPomodoros (id : Int) (tasks : List Task) : List Task :=
  tasks.map fun task =>
    if task.id = id then { task with pomodoros := task.pomodoros + 1 } else task

/-- `removeTask(id)` (lines 147–149): keep the tasks whose id differs. -/
def removeTask (id : Int) (tasks : List Task) : List Task :=
  tasks.filter fun task => task.id ≠ id

/-- The settings-panel number input `onChange` (lines 344–361):
`setTimerSettings({ ...timerSettings, [key]: parseInt(e.target.value) })`.
`v` is the `parseInt` result; no validation is applied before storing
(a non-positive or unparsable entry is stored as-is). -/
def updateSetting (key : TimerType) (v : Int) (s : TimerSettings) : TimerSettings :=
  match key with
  | .work => { s with work := v }
  | .shortBreak => { s with shortBreak := v }
  | .longBreak => { s with longBreak := v }

/-- Total remaining seconds of a countdown value, the measure the tick
loop decreases. -/
def Time.total (t : Time) : Int :=
  60 * t.minutes + t.seconds

/-- The structured values the persistence layer exchanges.  The save
effect (lines 60–62) passes the task array to `JSON.stringify`; the load
effect (lines 47–58) uses the `JSON.parse` result directly as `Task[]`.
Per spec §6 the text encoding itself is the external adapter's business
and round-trips structured values exactly, so persistence is modelled at
the level of these structured values. -/
inductive Json where
  | null
  | bool (b : Bool)
  | num (n : Int)
  | str (s : String)
  | arr (elems : List Json)
  | obj (fields : List (String × Json))

/-- The structured value `JSON.stringify` receives for one task: an
object with the fields `id`, `text`, `completed`, `pomodoros` in the
order the `addTask` literal (line 125) lays them out. -/
def Task.toJson (t : Task) : Json :=
  .obj [("id", .num t.id), ("text", .str t.text),
        ("completed", .bool t.completed), ("pomodoros", .num t.pomodoros)]

/-- The value saved under the `"pomodoro-tasks"` key (line 61): the
array of task objects in list order. -/
def tasksToJson (ts : List Task) : Json :=
  .arr (ts.map Task.toJson)

/-- Reading one task object back out of a parsed value, as the load
effect (line 50) consumes it (the code casts the parse result to
`Task[]`, so the expected shape is exactly what the save path wrote). -/
def Task.fromJson : Json → Option Task
  | .obj [("id", .num i), ("text", .str tx),
          ("completed", .bool c), ("pomodoros", .num p)] =>
    some { id := i, text := tx, completed := c, pomodoros := p }
  | _ => none

/-- Reading the whole saved task list back. -/
def tasksFromJson : Json → Option (List Task)
  | .arr elems => elems.mapM Task.fromJson
  | _ => none

/-! ## Helper lemmas about the clock -/

theorem tick_not_active (s : AppState) (h : s.isActive = false) : tick s = s := by
  simp [tick, h]

theorem tick_iterate_not_active (s : AppState) (h : s.isActive = false) :
    ∀ k : Nat, tick^[k] s = s := by
  intro k
  induction k with
  | zero => rfl
  | succ k ih => rw [Function.iterate_succ_apply, tick_not_active s h, ih]

theorem tick_seconds_pos (s : AppState) (ha : s.isActive = true)
    (hs : s.time.seconds ≠ 0) :
    tick s = { s with time := ⟨s.time.minutes, s.time.seconds - 1⟩ } := by
  simp [tick, ha, hs]

theorem tick_borrow (s : AppState) (ha : s.isActive = true)
    (hs : s.time.seconds = 0) (hm : s.time.minutes ≠ 0) :
    tick s = { s with time := ⟨s.time.minutes - 1, 59⟩ } := by
  simp [tick, ha, hs, hm]

theorem tick_complete_at_zero (s : AppState) (ha : s.isActive = true)
    (h : s.time = ⟨0, 0⟩) : tick s = handleTimerComplete s := by
  simp [tick, ha, h]

/-- Draining the countdown: while running, iterating `tick` exactly
`total` times (with a non-negative countdown) lands on 0:00 without
touching any other field and without any completion firing. -/
theorem tick_drain (n : Nat) :
    ∀ s : AppState, s.isActive = true → 0 ≤ s.time.minutes →
      0 ≤ s.time.seconds → s.time.total = n →
      tick^[n] s = { s with time := ⟨0, 0⟩ } := by
  induction n with
  | zero =>
    intro s ha hm hs htot
    obtain ⟨⟨tm, ts⟩, sa, sty, stk, sc, scfg, smu, se, sn⟩ := s
    unfold Time.total at htot
    simp only [Function.iterate_zero_apply]
    simp_all
    omega
  | succ n ih =>
    intro s ha hm hs htot
    unfold Time.total at htot
    rw [Function.iterate_succ_apply]
    by_cases hsz : s.time.seconds = 0
    · have hmz : s.time.minutes ≠ 0 := by omega
      rw [tick_borrow s ha hsz hmz]
      rw [ih { s with time := ⟨s.time.minutes - 1, 59⟩ } ha (by simp; omega)
        (by simp) (by unfold Time.total; simp; omega)]
    · rw [tick_seconds_pos s ha hsz]
      rw [ih { s with time := ⟨s.time.minutes, s.time.seconds - 1⟩ } ha
        (by simpa) (by simp; omega) (by unfold Time.total; simp; omega)]

theorem handleTimerComplete_isActive (s : AppState) :
    (handleTimerComplete s).isActive = false := by
  by_cases h : s.timerType = TimerType.work <;>
    simp [handleTimerComplete, switchTimer, h]

theorem handleTimerComplete_events (s : AppState) :
    (handleTimerComplete s).sessionCompletedEvents
      = s.sessionCompletedEvents + 1 := by
  by_cases h : s.timerType = TimerType.work <;>
    simp [handleTimerComplete, switchTimer, h]

theorem handleTimerComplete_notifications (s : AppState) :
    (handleTimerComplete s).notificationsFired
      = s.notificationsFired + (if s.isMuted then 0 else 1) := by
  by_cases h : s.timerType = TimerType.work <;>
    simp [handleTimerComplete, switchTimer, h]

/-- Packaging of `tick_drain` for a countdown given as a
(minutes, seconds) pair of naturals. -/
theorem tick_run (s : AppState) (m sec : Nat) (ha : s.isActive = true)
    (ht : s.time = ⟨(m : Int), (sec : Int)⟩) :
    tick^[m * 60 + sec] s = { s with time := ⟨0, 0⟩ } := by
  apply tick_drain (m * 60 + sec) s ha
  · rw [ht]; exact Int.natCast_nonneg m
  · rw [ht]; exact Int.natCast_nonneg sec
  · rw [ht]; unfold Time.total; push_cast; ring

/-! ## C1 -/

/-- C1, counterexample: a running work session at 0:01 (one second
remaining, so minutes*60+seconds = 1).  After exactly 1 tick the clock
shows 0:00 but no `SessionCompleted` event has fired and the session is
still running — completion actually requires minutes*60+seconds + 1
ticks, one more than the claim states. -/
theorem tick_session_completion_counterexample :
    (start { initialState with time := ⟨0, 1⟩ }).isActive = true ∧
    (start { initialState with time := ⟨0, 1⟩ }).sessionCompletedEvents = 0 ∧
    (tick^[0 * 60 + 1]
        (start { initialState with time := ⟨0, 1⟩ })).sessionCompletedEvents = 0 ∧
    (tick^[0 * 60 + 1]
        (start { initialState with time := ⟨0, 1⟩ })).isActive = true := by
  decide

/-- C1, amended: for every running session whose remaining time is
(minutes, seconds), applying `tick()` exactly minutes*60+seconds times
drains the clock to 0:00 with no completion yet; the (minutes*60+seconds
+ 1)-th tick transitions the session to completion exactly once, firing
exactly one `SessionCompleted` event and never more (any number of
further ticks changes nothing); the notification fires exactly once
unless muted.  In particular, starting a Focus session at 25:00 and
ticking 1501 times yields state {kind ShortBreak, 05:00, not running}
with CompletedFocusCount incremented by 1 and one notification fired. -/
theorem tick_session_completion (s : AppState) (m sec k : Nat)
    (ha : s.isActive = true) (ht : s.time = ⟨(m : Int), (sec : Int)⟩) :
    (tick^[m * 60 + sec] s).sessionCompletedEvents = s.sessionCompletedEvents ∧
    (tick^[m * 60 + sec] s).isActive = true ∧
    tick^[m * 60 + sec + 1] s = handleTimerComplete { s with time := ⟨0, 0⟩ } ∧
    (tick^[m * 60 + sec + 1] s).sessionCompletedEvents
      = s.sessionCompletedEvents + 1 ∧
    (tick^[m * 60 + sec + 1] s).isActive = false ∧
    (tick^[m * 60 + sec + 1] s).notificationsFired
      = s.notificationsFired + (if s.isMuted then 0 else 1) ∧
    tick^[k] (tick^[m * 60 + sec + 1] s) = tick^[m * 60 + sec + 1] s ∧
    tick^[1501] (start initialState)
      = { time := ⟨5, 0⟩, isActive := false, timerType := .shortBreak,
          tasks := [], completedPomodoros := 1, timerSettings := ⟨25, 5, 15⟩,
          isMuted := false, sessionCompletedEvents := 1,
          notificationsFired := 1 } := by
  have hdrain := tick_run s m sec ha ht
  have hstep : tick^[m * 60 + sec + 1] s
      = handleTimerComplete { s with time := ⟨0, 0⟩ } := by
    rw [Function.iterate_succ_apply', hdrain]
    exact tick_complete_at_zero _ ha rfl
  refine ⟨by rw [hdrain], by rw [hdrain]; exact ha, hstep, ?_, ?_, ?_, ?_, ?_⟩
  · rw [hstep, handleTimerComplete_events]
  · rw [hstep]; exact handleTimerComplete_isActive _
  · rw [hstep, handleTimerComplete_notifications]
  · rw [hstep]
    exact tick_iterate_not_active _ (handleTimerComplete_isActive _) k
  · have h0 := tick_run (start initialState) 25 0 (by decide) (by decide)
    have h150 : (25 * 60 + 0 : Nat) = 1500 := by norm_num
    rw [h150] at h0
    have h1 : tick^[1501] (start initialState)
        = tick (tick^[1500] (start initialState)) := by
      rw [show (1501 : Nat) = 1500 + 1 by norm_num, Function.iterate_succ_apply']
    rw [h1, h0]
    decide

/-- Witness for C1 at a concrete running session with 0:02 remaining. -/
theorem tick_session_completion_witness :
    (tick^[0 * 60 + 2 + 1]
        (start { initialState with time := ⟨0, 2⟩ })).sessionCompletedEvents
      = (start { initialState with time := ⟨0, 2⟩ }).sessionCompletedEvents + 1 ∧
    (tick^[0 * 60 + 2 + 1]
        (start { initialState with time := ⟨0, 2⟩ })).isActive = false :=
  ⟨(tick_session_completion (start { initialState with time := ⟨0, 2⟩ })
      0 2 5 (by decide) (by decide)).2.2.2.1,
   (tick_session_completion (start { initialState with time := ⟨0, 2⟩ })
      0 2 5 (by decide) (by decide)).2.2.2.2.1⟩

/-! ## C2 -/

theorem completeFocus_step (t : AppState) :
    (handleTimerComplete (switchTimer .work t)).completedPomodoros
      = t.completedPomodoros + 1 := by
  simp [handleTimerComplete, switchTimer]

/-- C2: on `SessionCompleted(kind)` — i.e. `handleTimerComplete` running
with the completed kind still current — a Focus (work) completion
increments CompletedFocusCount by exactly 1 and switches to ShortBreak;
a ShortBreak or LongBreak completion switches to Focus (work) and leaves
the counter unchanged; and completing N Focus sessions in a row (each
one entered via `switchTimer work`) adds exactly N to the counter. -/
theorem handleTimerComplete_policy (s : AppState) (N : Nat) :
    (s.timerType = .work →
      (handleTimerComplete s).completedPomodoros = s.completedPomodoros + 1 ∧
      (handleTimerComplete s).timerType = .shortBreak) ∧
    ((s.timerType = .shortBreak ∨ s.timerType = .longBreak) →
      (handleTimerComplete s).timerType = .work ∧
      (handleTimerComplete s).completedPomodoros = s.completedPomodoros) ∧
    ((handleTimerComplete ∘ switchTimer .work)^[N] s).completedPomodoros
      = s.completedPomodoros + (N : Int) := by
  refine ⟨?_, ?_, ?_⟩
  · intro h
    constructor <;> simp [handleTimerComplete, switchTimer, h]
  · intro h
    have hw : s.timerType ≠ .work := by rcases h with h | h <;> simp [h]
    constructor <;> simp [handleTimerComplete, switchTimer, hw]
  · induction N with
    | zero => simp
    | succ n ih =>
      rw [Function.iterate_succ_apply', Function.comp_apply,
        completeFocus_step, ih]
      push_cast
      ring

/-- Witness for C2: a work completion from the initial state, a
short-break completion, and a 3-cycle run. -/
theorem handleTimerComplete_policy_witness :
    (handleTimerComplete initialState).completedPomodoros
      = initialState.completedPomodoros + 1 ∧
    (handleTimerComplete initialState).timerType = .shortBreak ∧
    (handleTimerComplete (switchTimer .shortBreak initialState)).timerType
      = .work ∧
    ((handleTimerComplete ∘ switchTimer .work)^[3] initialState).completedPomodoros
      = initialState.completedPomodoros + (3 : Int) :=
  ⟨((handleTimerComplete_policy initialState 3).1 rfl).1,
   ((handleTimerComplete_policy initialState 3).1 rfl).2,
   ((handleTimerComplete_policy (switchTimer .shortBreak initialState) 0).2.1
      (Or.inl rfl)).1,
   (handleTimerComplete_policy initialState 3).2.2⟩

/-! ## C3 -/

/-- C3: for every kind `k` whose configured duration is `d > 0` minutes,
`switchTimer k` in any state sets the kind to `k`, sets the countdown to
(minutes = d, seconds = 0), and does not change `isActive`. -/
theorem switchTimer_spec (s : AppState) (k : TimerType) (d : Int)
    (_hd : 0 < d) (hcfg : s.timerSettings.get k = d) :
    (switchTimer k s).timerType = k ∧
    (switchTimer k s).time = ⟨d, 0⟩ ∧
    (switchTimer k s).isActive = s.isActive := by
  refine ⟨rfl, ?_, rfl⟩
  simp [switchTimer, hcfg]

/-- Witness for C3: switch the initial state to ShortBreak (configured
duration 5 > 0). -/
theorem switchTimer_spec_witness :
    (0 : Int) < 5 ∧
    ((switchTimer .shortBreak initialState).timerType = .shortBreak ∧
     (switchTimer .shortBreak initialState).time = ⟨5, 0⟩ ∧
     (switchTimer .shortBreak initialState).isActive
       = initialState.isActive) :=
  ⟨by norm_num,
   switchTimer_spec initialState .shortBreak 5 (by norm_num) rfl⟩

/-! ## C4 -/

/-- C4: `start` sets `isActive` to true, never changes the remaining
time, and is a no-op when the session is already running; `pause`
preserves the remaining time; and `pause` followed by `start` resumes
running with the remaining time exactly unchanged. -/
theorem start_pause_spec (s : AppState) :
    (start s).isActive = true ∧
    (start s).time = s.time ∧
    (s.isActive = true → start s = s) ∧
    (pause s).time = s.time ∧
    start (pause s) = { s with isActive := true } := by
  by_cases h : s.isActive <;>
    simp [start, pause, toggleTimer, h]

/-- Witness for C4 at the running state `start initialState`. -/
theorem start_pause_spec_witness :
    (start (start initialState)).isActive = true ∧
    start (start initialState) = start initialState ∧
    start (pause (start initialState))
      = { start initialState with isActive := true } :=
  ⟨(start_pause_spec (start initialState)).1,
   (start_pause_spec (start initialState)).2.2.1 (by decide),
   (start_pause_spec (start initialState)).2.2.2.2⟩

/-! ## C5 -/

/-- C5: `addTask` leaves the task list exactly unchanged when the
submitted text is empty or whitespace-only after trimming; otherwise it
appends exactly one new task at the end, with `completed = false` and
`pomodoros = 0` (the spec's focusCount), leaving all existing tasks and
their order unchanged. -/
theorem addTask_spec (now : Int) (text : String) (tasks : List Task) :
    (jsTrim text = "" → addTask now text tasks = tasks) ∧
    (jsTrim text ≠ "" →
      addTask now text tasks
        = tasks ++ [{ id := now, text := text, completed := false,
                      pomodoros := 0 }]) := by
  constructor
  · intro h; simp [addTask, h]
  · intro h; simp [addTask, h]

/-- Witness for C5: rejection of `""` and `"   "`, acceptance of
`"write spec"`. -/
theorem addTask_spec_witness :
    addTask 1 "" [] = [] ∧
    addTask 2 "   "
        [{ id := 1, text := "x", completed := false, pomodoros := 0 }]
      = [{ id := 1, text := "x", completed := false, pomodoros := 0 }] ∧
    addTask 3 "write spec" []
      = [{ id := 3, text := "write spec", completed := false,
           pomodoros := 0 }] :=
  ⟨(addTask_spec 1 "" []).1 rfl,
   (addTask_spec 2 "   "
      [{ id := 1, text := "x", completed := false, pomodoros := 0 }]).1
      (by decide),
   (addTask_spec 3 "write spec" []).2 (by decide)⟩

/-! ## C10 -/

/-- C10: when `addTask` accepts an input (trimmed form non-empty), the
stored task's text is the submitted string verbatim — trimming is
applied only to the acceptance check, never to the stored value. -/
theorem addTask_stores_untrimmed (now : Int) (text : String)
    (tasks : List Task) (h : jsTrim text ≠ "") :
    (addTask now text tasks).map Task.text = tasks.map Task.text ++ [text] := by
  simp [addTask, h]

/-- Witness for C10: the stored text keeps its surrounding whitespace. -/
theorem addTask_stores_untrimmed_witness :
    (addTask 3 "  hi  " []).map Task.text = [] ++ ["  hi  "] :=
  addTask_stores_untrimmed 3 "  hi  " [] (by decide)

/-! ## C6 -/

/-- C6, counterexample: the id assigned by `addTask` is the `Date.now()`
timestamp, which is not fresh — a call whose timestamp equals an
existing task's id (two submissions within the same millisecond, or a
system clock stepped back over a persisted list) produces a duplicate
id. -/
theorem task_ids_distinct_counterexample :
    ¬ (((addTask 5 "B"
          [{ id := 5, text := "A", completed := false,
             pomodoros := 0 }]).map Task.id).Nodup) := by
  decide

/-- C6, amended: `toggleTaskCompletion`, `incrementTaskPomodoros` and
`removeTask` always preserve pairwise distinctness of ids, and `addTask`
preserves it provided the generated timestamp differs from every
existing id; ids are not unconditionally distinct, because the id is the
current clock value. -/
theorem task_ids_distinct_preserved (now id : Int) (text : String)
    (tasks : List Task) (h : (tasks.map Task.id).Nodup)
    (hnow : now ∉ tasks.map Task.id) :
    ((toggleTaskCompletion id tasks).map Task.id).Nodup ∧
    ((incrementTaskPomodoros id tasks).map Task.id).Nodup ∧
    ((removeTask id tasks).map Task.id).Nodup ∧
    ((addTask now text tasks).map Task.id).Nodup := by
  have htog : (toggleTaskCompletion id tasks).map Task.id
      = tasks.map Task.id := by
    unfold toggleTaskCompletion
    rw [List.map_map]
    apply List.map_congr_left
    intro t _
    by_cases h' : t.id = id <;> simp [h']
  have hinc : (incrementTaskPomodoros id tasks).map Task.id
      = tasks.map Task.id := by
    unfold incrementTaskPomodoros
    rw [List.map_map]
    apply List.map_congr_left
    intro t _
    by_cases h' : t.id = id <;> simp [h']
  refine ⟨htog ▸ h, hinc ▸ h, ?_, ?_⟩
  · exact h.sublist ((List.filter_sublist tasks).map Task.id)
  · by_cases h' : jsTrim text = ""
    · simpa [addTask, h'] using h
    · simp only [addTask, h', ne_eq, not_false_iff, if_pos, List.map_append,
        List.map_cons, List.map_nil]
      rw [List.nodup_append]
      exact ⟨h, List.nodup_singleton now, by simpa using hnow⟩

/-- Witness for C6 on a concrete one-task list with a fresh timestamp. -/
theorem task_ids_distinct_preserved_witness :
    ((toggleTaskCompletion 1
        [{ id := 1, text := "A", completed := false,
           pomodoros := 0 }]).map Task.id).Nodup ∧
    ((incrementTaskPomodoros 1
        [{ id := 1, text := "A", completed := false,
           pomodoros := 0 }]).map Task.id).Nodup ∧
    ((removeTask 1
        [{ id := 1, text := "A", completed := false,
           pomodoros := 0 }]).map Task.id).Nodup ∧
    ((addTask 2 "B"
        [{ id := 1, text := "A", completed := false,
           pomodoros := 0 }]).map Task.id).Nodup :=
  task_ids_distinct_preserved 2 1 "B"
    [{ id := 1, text := "A", completed := false, pomodoros := 0 }]
    (by decide) (by decide)

/-! ## C7 -/

/-- C7, counterexample: the settings input stores `parseInt` of the
typed value with no validation; entering 0 for the work duration stores
0, violating the all-positive invariant. -/
theorem settings_positive_counterexample :
    updateSetting .work 0 initialState.timerSettings
      = { work := 0, shortBreak := 5, longBreak := 15 } ∧
    ¬ (0 < (updateSetting .work 0 initialState.timerSettings).work) := by
  decide

/-- C7, amended: the duration configuration starts at the positive
defaults Focus=25, ShortBreak=5, LongBreak=15; an update stores the
parsed value unvalidated, so the all-positive invariant is preserved
only when the entered value is itself positive. -/
theorem settings_positive_amended (cfg : TimerSettings) (k t : TimerType)
    (v : Int)
    (hcfg : 0 < cfg.work ∧ 0 < cfg.shortBreak ∧ 0 < cfg.longBreak)
    (hv : 0 < v) :
    initialState.timerSettings = { work := 25, shortBreak := 5, longBreak := 15 } ∧
    0 < initialState.timerSettings.get t ∧
    0 < (updateSetting k v cfg).get t := by
  obtain ⟨h1, h2, h3⟩ := hcfg
  refine ⟨rfl, ?_, ?_⟩
  · cases t <;> norm_num [initialState, TimerSettings.get]
  · cases k <;> cases t <;>
      simp only [updateSetting, TimerSettings.get] <;>
      assumption

/-- Witness for C7: updating the work duration of the default
configuration to 30. -/
theorem settings_positive_amended_witness :
    initialState.timerSettings = { work := 25, shortBreak := 5, longBreak := 15 } ∧
    0 < initialState.timerSettings.get .work ∧
    0 < (updateSetting .work 30
          { work := 25, shortBreak := 5, longBreak := 15 }).get .work :=
  settings_positive_amended
    { work := 25, shortBreak := 5, longBreak := 15 } .work .work 30
    (by norm_num) (by norm_num)

/-! ## C8 -/

/-- C8: for every id not present in the list, `toggleTaskCompletion`,
`incrementTaskPomodoros` and `removeTask` leave the list exactly
unchanged (silent no-op); every mutation preserves the relative order of
the remaining tasks (the mapping operations keep the id sequence intact
and removal yields a sublist); and the scenario addTask("A"),
addTask("B"), removeTask(id of "A") leaves exactly ["B"]. -/
theorem unknown_id_noop (id j : Int) (tasks : List Task)
    (h : ∀ t ∈ tasks, t.id ≠ id) :
    toggleTaskCompletion id tasks = tasks ∧
    incrementTaskPomodoros id tasks = tasks ∧
    removeTask id tasks = tasks ∧
    (toggleTaskCompletion j tasks).map Task.id = tasks.map Task.id ∧
    (incrementTaskPomodoros j tasks).map Task.id = tasks.map Task.id ∧
    (removeTask j tasks).Sublist tasks ∧
    removeTask 1 (addTask 2 "B" (addTask 1 "A" []))
      = [{ id := 2, text := "B", completed := false, pomodoros := 0 }] := by
  refine ⟨?_, ?_, ?_, ?_, ?_, List.filter_sublist tasks, by decide⟩
  · unfold toggleTaskCompletion
    conv_rhs => rw [← List.map_id tasks]
    apply List.map_congr_left
    intro t ht
    simp [h t ht]
  · unfold incrementTaskPomodoros
    conv_rhs => rw [← List.map_id tasks]
    apply List.map_congr_left
    intro t ht
    simp [h t ht]
  · unfold removeTask
    rw [List.filter_eq_self]
    intro t ht
    simpa using h t ht
  · unfold toggleTaskCompletion
    rw [List.map_map]
    apply List.map_congr_left
    intro t _
    by_cases h' : t.id = j <;> simp [h']
  · unfold incrementTaskPomodoros
    rw [List.map_map]
    apply List.map_congr_left
    intro t _
    by_cases h' : t.id = j <;> simp [h']

/-- Witness for C8: id 9 is absent from a concrete one-task list. -/
theorem unknown_id_noop_witness :
    toggleTaskCompletion 9
        [{ id := 3, text := "C", completed := false, pomodoros := 0 }]
      = [{ id := 3, text := "C", completed := false, pomodoros := 0 }] ∧
    incrementTaskPomodoros 9
        [{ id := 3, text := "C", completed := false, pomodoros := 0 }]
      = [{ id := 3, text := "C", completed := false, pomodoros := 0 }] ∧
    removeTask 9
        [{ id := 3, text := "C", completed := false, pomodoros := 0 }]
      = [{ id := 3, text := "C", completed := false, pomodoros := 0 }] ∧
    (toggleTaskCompletion 3
        [{ id := 3, text := "C", completed := false, pomodoros := 0 }]).map
        Task.id
      = [({ id := 3, text := "C", completed := false,
            pomodoros := 0 } : Task)].map Task.id ∧
    (incrementTaskPomodoros 3
        [{ id := 3, text := "C", completed := false, pomodoros := 0 }]).map
        Task.id
      = [({ id := 3, text := "C", completed := false,
            pomodoros := 0 } : Task)].map Task.id ∧
    (removeTask 3
        [{ id := 3, text := "C", completed := false,
           pomodoros := 0 }]).Sublist
        [{ id := 3, text := "C", completed := false, pomodoros := 0 }] ∧
    removeTask 1 (addTask 2 "B" (addTask 1 "A" []))
      = [{ id := 2, text := "B", completed := false, pomodoros := 0 }] :=
  unknown_id_noop 9 3
    [{ id := 3, text := "C", completed := false, pomodoros := 0 }]
    (by decide)

/-! ## C9 -/

/-- C9: round-trip persistence — encoding the task list as the
structured value handed to the persistence adapter and reading it back
reproduces an identical ordered task sequence (same ids, texts,
completed flags and pomodoro counts, in the same order). -/
theorem tasks_roundtrip (ts : List Task) :
    tasksFromJson (tasksToJson ts) = some ts := by
  have key : ∀ l : List Task, (l.map Task.toJson).mapM Task.fromJson = some l := by
    intro l
    induction l with
    | nil => rfl
    | cons t ts ih =>
      simp only [List.map_cons, List.mapM_cons, ih, Task.toJson, Task.fromJson]
      rfl
  exact key ts

end Pomodoro
